import Mathlib

/-!
Verification development for the StyleAssistant (GroveAssistant) repository.

The backend orchestration layer (analysis service, analysis cache,
profile versioning, cost calculation) is embedded from the Python code in
the repository; the client retry controller and the background message
handler are embedded from the TypeScript extension code.

Machine integers do not occur: Python ints are unbounded, so token counts
are modelled as Int and money as Rat.  SHA-256 is implemented over Nat
with explicit reduction modulo 2 ^ 32.
-/

/-! ### JSON values

Profiles are Python dicts serialized with
json.dumps(profile_data, sort_keys=True, separators=(",", ":")).
A JSON value is modelled inductively; objects are association lists.
Python dicts cannot hold duplicate keys, so theorems about objects carry a
Nodup hypothesis on the keys.  Float literals do not occur in profile
data (all values are strings, lists of strings, or null), so numbers are
modelled as integers.
-/

mutual

inductive Json where
  | null : Json
  | bool (b : Bool) : Json
  | num (n : Int) : Json
  | str (s : String) : Json
  | arr (xs : JsonList) : Json
  | obj (kvs : JsonPairs) : Json

inductive JsonList where
  | nil : JsonList
  | cons (x : Json) (xs : JsonList) : JsonList

inductive JsonPairs where
  | nil : JsonPairs
  | cons (k : String) (v : Json) (rest : JsonPairs) : JsonPairs

end

/-- An array value from an element list. -/
def JsonList.ofList : List Json → JsonList
  | [] => .nil
  | x :: xs => .cons x (JsonList.ofList xs)

/-- An object value from a key-value list. -/
def JsonPairs.ofList : List (String × Json) → JsonPairs
  | [] => .nil
  | kv :: rest => .cons kv.1 kv.2 (JsonPairs.ofList rest)

def Json.mkArr (xs : List Json) : Json := .arr (JsonList.ofList xs)

def Json.mkObj (kvs : List (String × Json)) : Json := .obj (JsonPairs.ofList kvs)

/-- Lower-case hexadecimal digit for a value below 16. -/
def hexDigit (n : Nat) : Char :=
  if n < 10 then Char.ofNat (48 + n) else Char.ofNat (87 + n)

/-- Four hex digits of a value below 2 ^ 16 (the \uXXXX form). -/
def hex4 (n : Nat) : List Char :=
  [hexDigit (n / 4096 % 16), hexDigit (n / 256 % 16), hexDigit (n / 16 % 16),
    hexDigit (n % 16)]

/-- The two-character escapes of json.dumps by code point: quote (34),
backslash (92), and the control characters with short forms. -/
def shortEscape (n : Nat) : Option Char :=
  if n = 34 then some '"'
  else if n = 92 then some '\\'
  else if n = 10 then some 'n'
  else if n = 13 then some 'r'
  else if n = 9 then some 't'
  else if n = 8 then some 'b'
  else if n = 12 then some 'f'
  else none

/-- Escaping of one character, as performed by json.dumps with the default
ensure_ascii=True: the two-character escapes where a short form exists,
\uXXXX for the remaining control characters and for every character
above 0x7e, with surrogate pairs above 0xffff, and the character itself
otherwise. -/
def escapeChar (c : Char) : List Char :=
  let n := c.toNat
  match shortEscape n with
  | some e => ['\\', e]
  | none =>
    if n < 32 ∨ n > 126 then
      if n < 65536 then '\\' :: 'u' :: hex4 n
      else
        ('\\' :: 'u' :: hex4 (55296 + (n - 65536) / 1024)) ++
          ('\\' :: 'u' :: hex4 (56320 + (n - 65536) % 1024))
    else [c]

/-- A JSON string literal: quote, escaped characters, quote. -/
def serializeStr (s : String) : List Char :=
  '"' :: (s.data.map escapeChar).flatten ++ ['"']

/-- Key order used by sort_keys=True: comparison of the key strings.
The sort is stable and compares only keys, so sorting the serialized
entries equals serializing the key-sorted items. -/
def entryLE (p q : String × List Char) : Prop := p.1 ≤ q.1

instance : DecidableRel entryLE := fun p q => inferInstanceAs (Decidable (p.1 ≤ q.1))

instance : IsTotal (String × List Char) entryLE := ⟨fun p q => le_total p.1 q.1⟩

instance : IsTrans (String × List Char) entryLE := ⟨fun _ _ _ h h2 => le_trans h h2⟩

/-- Strict key order, used to identify two sorted key-distinct lists. -/
def entryLT (p q : String × List Char) : Prop := p.1 < q.1

instance : IsAntisymm (String × List Char) entryLT :=
  ⟨fun _ _ h h2 => absurd (lt_trans h h2) (lt_irrefl _)⟩

/-- The stable key sort applied to the items of an object by
sort_keys=True. -/
def sortEntries (l : List (String × List Char)) : List (String × List Char) :=
  List.insertionSort entryLE l

/-! ### Serialization of a JSON value to characters, following
json.dumps(x, sort_keys=True, separators=(",", ":")): no insignificant
whitespace, object keys sorted at every level.  Each object item is
serialized first and the entries are then key-sorted; the sort is stable
and compares keys only, so this equals sorting the items before
serializing them. -/

mutual

/-- Serialization of one JSON value. -/
def dumpsChars : Json → List Char
  | .null => ("null" : String).data
  | .bool true => ("true" : String).data
  | .bool false => ("false" : String).data
  | .num n => (toString n).data
  | .str s => serializeStr s
  | .arr xs => '[' :: List.intercalate [','] (dumpsList xs) ++ [']']
  | .obj kvs =>
      Char.ofNat 123 ::
        List.intercalate [',']
          ((sortEntries (dumpsPairs kvs)).map
            (fun kv => serializeStr kv.1 ++ ':' :: kv.2)) ++
        [Char.ofNat 125]

/-- The serialized elements of an array, in order. -/
def dumpsList : JsonList → List (List Char)
  | .nil => []
  | .cons x xs => dumpsChars x :: dumpsList xs

/-- The serialized items of an object, in source order. -/
def dumpsPairs : JsonPairs → List (String × List Char)
  | .nil => []
  | .cons k v rest => (k, dumpsChars v) :: dumpsPairs rest

end

/-- The normalized serialization of a profile, as a string. -/
def dumps (j : Json) : String := String.mk (dumpsChars j)

/-! ### SHA-256 (hashlib.sha256), over Nat with reduction mod 2 ^ 32 -/

/-- Reduction of a word to 32 bits. -/
def w32 (x : Nat) : Nat := x % 4294967296

/-- Right rotation of a 32-bit word by n positions (arithmetic form:
the shifted-out low bits reappear at the top; the two parts do not
overlap, so addition equals bitwise or). -/
def rotr32 (n x : Nat) : Nat := w32 (x / 2 ^ n + x % 2 ^ n * 2 ^ (32 - n))

/-- Logical right shift of a 32-bit word. -/
def shr32 (n x : Nat) : Nat := x / 2 ^ n

/-- Three-way xor. -/
def xor3 (a b c : Nat) : Nat := Nat.xor (Nat.xor a b) c

/-- Bitwise complement within 32 bits. -/
def not32 (x : Nat) : Nat := 4294967295 - w32 x

def bsig0 (x : Nat) : Nat := xor3 (rotr32 2 x) (rotr32 13 x) (rotr32 22 x)

def bsig1 (x : Nat) : Nat := xor3 (rotr32 6 x) (rotr32 11 x) (rotr32 25 x)

def ssig0 (x : Nat) : Nat := xor3 (rotr32 7 x) (rotr32 18 x) (shr32 3 x)

def ssig1 (x : Nat) : Nat := xor3 (rotr32 17 x) (rotr32 19 x) (shr32 10 x)

def chFn (x y z : Nat) : Nat := Nat.xor (Nat.land x y) (Nat.land (not32 x) z)

def majFn (x y z : Nat) : Nat := xor3 (Nat.land x y) (Nat.land x z) (Nat.land y z)

/-- The 64 SHA-256 round constants. -/
def K256 : List Nat :=
  [1116352408, 1899447441, 3049323471, 3921009573, 961987163,
   1508970993, 2453635748, 2870763221, 3624381080, 310598401,
   607225278, 1426881987, 1925078388, 2162078206, 2614888103,
   3248222580, 3835390401, 4022224774, 264347078, 604807628,
   770255983, 1249150122, 1555081692, 1996064986, 2554220882,
   2821834349, 2952996808, 3210313671, 3336571891, 3584528711,
   113926993, 338241895, 666307205, 773529912, 1294757372,
   1396182291, 1695183700, 1986661051, 2177026350, 2456956037,
   2730485921, 2820302411, 3259730800, 3345764771, 3516065817,
   3600352804, 4094571909, 275423344, 430227734, 506948616,
   659060556, 883997877, 958139571, 1322822218, 1537002063,
   1747873779, 1955562222, 2024104815, 2227730452, 2361852424,
   2428436474, 2756734187, 3204031479, 3329325298]

/-- The initial SHA-256 hash state. -/
def H256 : List Nat :=
  [1779033703, 3144134277, 1013904242, 2773480762, 1359893119,
   2600822924, 528734635, 1541459225]

/-- Next word of the message schedule, from the last 16 words so far. -/
def nextScheduleWord (w : List Nat) : Nat :=
  let L := w.length
  w32 (ssig1 (w.getD (L - 2) 0) + w.getD (L - 7) 0 +
    ssig0 (w.getD (L - 15) 0) + w.getD (L - 16) 0)

/-- Extension of the 16 block words to the 64 schedule words. -/
def extendSchedule : Nat → List Nat → List Nat
  | 0, w => w
  | n + 1, w => extendSchedule n (w ++ [nextScheduleWord w])

/-- Working state of the compression function. -/
structure Sha2State where
  a : Nat
  b : Nat
  c : Nat
  d : Nat
  e : Nat
  f : Nat
  g : Nat
  h : Nat

/-- One round of the SHA-256 compression function. -/
def compressRound (s : Sha2State) (kw : Nat × Nat) : Sha2State :=
  let t1 := w32 (s.h + bsig1 s.e + chFn s.e s.f s.g + kw.1 + kw.2)
  let t2 := w32 (bsig0 s.a + majFn s.a s.b s.c)
  ⟨w32 (t1 + t2), s.a, s.b, s.c, w32 (s.d + t1), s.e, s.f, s.g⟩

/-- Big-endian packing of bytes into 32-bit words. -/
def bytesToWords : List Nat → List Nat
  | b0 :: b1 :: b2 :: b3 :: rest =>
      (b0 * 16777216 + b1 * 65536 + b2 * 256 + b3) :: bytesToWords rest
  | _ => []

/-- Compression of one 64-byte block into the hash state. -/
def compressBlock (hs : List Nat) (block : List Nat) : List Nat :=
  let ws := extendSchedule 48 (bytesToWords block)
  let s0 : Sha2State :=
    ⟨hs.getD 0 0, hs.getD 1 0, hs.getD 2 0, hs.getD 3 0,
     hs.getD 4 0, hs.getD 5 0, hs.getD 6 0, hs.getD 7 0⟩
  let sf := (K256.zip ws).foldl compressRound s0
  [w32 (s0.a + sf.a), w32 (s0.b + sf.b), w32 (s0.c + sf.c), w32 (s0.d + sf.d),
   w32 (s0.e + sf.e), w32 (s0.f + sf.f), w32 (s0.g + sf.g), w32 (s0.h + sf.h)]

/-- Big-endian 8-byte encoding of the bit length. -/
def lenBytes (n : Nat) : List Nat :=
  (List.range 8).map (fun i => n / 2 ^ (8 * (7 - i)) % 256)

/-- SHA-256 padding: 0x80, zeros to 56 mod 64, then the 64-bit bit length. -/
def padMessage (msg : List Nat) : List Nat :=
  let z := (119 - msg.length % 64) % 64
  msg ++ 128 :: List.replicate z 0 ++ lenBytes (8 * msg.length)

/-- Split a byte list into 64-byte blocks; structural recursion on a
fuel bound that the length of the list (used by chunks64 below) always
covers, since each step consumes at least one byte. -/
def chunks64F : Nat → List Nat → List (List Nat)
  | 0, _ => []
  | _, [] => []
  | fuel + 1, x :: xs => ((x :: xs).take 64) :: chunks64F fuel ((x :: xs).drop 64)

/-- Split a byte list into 64-byte blocks. -/
def chunks64 (l : List Nat) : List (List Nat) := chunks64F l.length l

/-- The eight 32-bit words of the SHA-256 digest of a byte string. -/
def sha256words (msg : List Nat) : List Nat :=
  (chunks64 (padMessage msg)).foldl compressBlock H256

/-- Eight lower-case hex digits of one 32-bit word. -/
def wordHex (w : Nat) : List Char :=
  (List.range 8).map (fun i => hexDigit (w / 16 ^ (7 - i) % 16))

/-- The 64 characters of hashlib.sha256(...).hexdigest(). -/
def sha256hexChars (msg : List Nat) : List Char :=
  ((sha256words msg).map wordHex).flatten

/-- UTF-8 bytes of a string; the serialized profile is pure ASCII
(ensure_ascii=True), so each character is one byte equal to its
code point. -/
def strBytes (s : String) : List Nat := s.data.map Char.toNat

/-- Embedded from profiles/versioning.py: get_profile_version.
Normalizes the profile with json.dumps(sort_keys=True,
separators=(",", ":")), hashes with SHA-256 and keeps the first 16 hex
characters. -/
def get_profile_version (profile_data : Json) : String :=
  String.mk ((sha256hexChars (strBytes (dumps profile_data))).take 16)

/-! ### Cost calculation (ai_providers/claude.py)

Money is modelled as Rat.  Python computes the sum in floating point and
applies round(cost, 6); round-half-to-even on the exact rational value
models this (the inputs are small decimal fractions, where the float
computation agrees with the exact one at the modelled precision).
-/

def SONNET_4_5 : String := "claude-sonnet-4.5-20250929"

def HAIKU_4_5 : String := "claude-haiku-4.5-20250929"

/-- A pricing record: per-million-token rates for the four categories. -/
structure Pricing where
  input : ℚ
  output : ℚ
  cache_read : ℚ
  cache_write : ℚ

/-- Embedded from ClaudeProvider.PRICING; an unknown model has no record
(indexing the Python dict with it raises KeyError). -/
def PRICING (model : String) : Option Pricing :=
  if model = SONNET_4_5 then some ⟨3, 15, 3/10, 15/4⟩
  else if model = HAIKU_4_5 then some ⟨1, 5, 1/10, 5/4⟩
  else none

/-- The four token counts of one call.  Python ints are unbounded and
signed, hence Int. -/
structure TokenUsage where
  input : Int
  output : Int
  cache_read : Int
  cache_write : Int

/-- Round-half-to-even to an integer, as Python round does. -/
def roundHalfEven (q : ℚ) : ℤ :=
  if q - Int.floor q < 1/2 then Int.floor q
  else if q - Int.floor q > 1/2 then Int.floor q + 1
  else if Int.floor q % 2 = 0 then Int.floor q else Int.floor q + 1

/-- Round to six decimal places, as round(cost, 6) does. -/
def roundTo6 (q : ℚ) : ℚ := (roundHalfEven (q * 1000000) : ℚ) / 1000000

/-- Embedded from ClaudeProvider.calculate_cost: the four products of
count and per-million rate, summed and rounded to six decimals; none for
a model absent from PRICING. -/
def calculate_cost (tokens : TokenUsage) (model : String) : Option ℚ :=
  (PRICING model).map (fun pricing =>
    roundTo6 (tokens.input * pricing.input / 1000000 +
      tokens.output * pricing.output / 1000000 +
      tokens.cache_read * pricing.cache_read / 1000000 +
      tokens.cache_write * pricing.cache_write / 1000000))

/-- The sum-over-categories form of the spec: Σ over the category list of
tokens[c] * price[model][c] / 1,000,000, rounded to the fixed precision.
Stated from the words of the spec, for comparison with calculate_cost. -/
def cost_spec (tokens : TokenUsage) (model : String) : Option ℚ :=
  (PRICING model).map (fun pricing =>
    roundTo6 (([((tokens.input : ℚ), pricing.input), ((tokens.output : ℚ), pricing.output),
      ((tokens.cache_read : ℚ), pricing.cache_read),
      ((tokens.cache_write : ℚ), pricing.cache_write)].map
        (fun c => c.1 * c.2 / 1000000)).sum))

/-! ### Database rows (backend/schema.sql) and the analysis cache -/

/-- A row of the products table (the columns the orchestrator reads). -/
structure ProductRow where
  id : Nat
  product_url : String

/-- A row of the analyses table (the columns the orchestrator touches). -/
structure AnalysisRow where
  product_id : Nat
  profile_version : String
  model_used : String
  analysis_type : String
  analysis_data : Json
  tokens_input : Int
  tokens_output : Int
  tokens_cache_read : Int
  tokens_cache_write : Int
  cost_usd : ℚ
  created_at : Nat

/-- A row of the cost_log table. -/
structure CostLogRow where
  session_id : String
  model : String
  tokens_prompt : Int
  tokens_completion : Int
  tokens_cache_read : Int
  tokens_cache_write : Int
  cost_usd : ℚ
  request_type : String

/-- The persistent store: the three tables the orchestrator touches.
Tables are append-only lists; rowids grow with position. -/
structure Db where
  products : List ProductRow
  analyses : List AnalysisRow
  cost_log : List CostLogRow

/-- The row of maximal created_at of a list (ORDER BY created_at DESC
LIMIT 1); on equal timestamps SQLite leaves the order unspecified, here a
later row wins. -/
def latestRow : List AnalysisRow → Option AnalysisRow
  | [] => none
  | r :: rs =>
    match latestRow rs with
    | none => some r
    | some best => some (if r.created_at ≤ best.created_at then best else r)

/-- The WHERE clause of the cache lookup: exact match on the triple.
The version key is profile_version or "" as in the source (basic mode
passes None, stored as the empty-string sentinel). -/
def rowMatches (product_id : Nat) (profile_version : Option String)
    (analysis_type : String) (a : AnalysisRow) : Bool :=
  a.product_id == product_id && a.profile_version == profile_version.getD "" &&
    a.analysis_type == analysis_type

/-- Embedded from analysis/cache.py get_cached_analysis, the row-level
part: resolve the product by URL, then the most recent analyses row
matching (product_id, profile_version or "", analysis_type). -/
def lookupRow (db : Db) (product_url : String) (profile_version : Option String)
    (analysis_type : String) : Option AnalysisRow :=
  match db.products.find? (fun p => p.product_url == product_url) with
  | none => none
  | some p =>
    latestRow (db.analyses.filter (rowMatches p.id profile_version analysis_type))

/-- The dict returned by get_cached_analysis on a hit: analysis_data,
model_used, input and output token counts (the cache-tier counts are not
selected), the stored cost_usd, and cached=True. -/
structure CachedHit where
  analysis_data : Json
  model_used : String
  tokens_input : Int
  tokens_output : Int
  cost_usd : ℚ

/-- Embedded from analysis/cache.py get_cached_analysis: the selected
columns of the most recent matching row, or none on a miss. -/
def get_cached_analysis (db : Db) (product_url : String)
    (profile_version : Option String) (analysis_type : String) : Option CachedHit :=
  (lookupRow db product_url profile_version analysis_type).map (fun row =>
    ⟨row.analysis_data, row.model_used, row.tokens_input, row.tokens_output,
      row.cost_usd⟩)

/-! ### The analysis orchestrator (analysis/service.py AnalysisService) -/

/-- The result dict of a successful AI provider call. -/
structure AiResult where
  analysis : Json
  tokens : TokenUsage
  cost_usd : ℚ
  model_used : String

/-- Outcome of the single gateway call of one invocation: the provider
either returns a result or raises a classified error. -/
inductive AiOutcome where
  | ok (r : AiResult)
  | err (e : String)

/-- The AnalysisRequest schema (analysis/schemas.py): product URL,
optional profile, mode (full or basic), use_cache flag, session id. -/
structure AnalysisRequest where
  product_url : String
  user_profile : Option Json
  mode : String
  use_cache : Bool
  session_id : String

/-- The AnalysisResponse schema.  tokens_used is a Python dict: two keys
on a cache hit, four on a fresh analysis, hence an association list.
profile_version defaults to None and is not set on the cache-hit path. -/
structure AnalysisResponse where
  analysis_data : Json
  cost_usd : ℚ
  tokens_used : List (String × Int)
  model_used : String
  cached : Bool
  profile_version : Option String

/-- Modelled from the spec: ProductService.get_or_create, whose body is
not under src (only its caller is).  Per the schema (product_url UNIQUE)
and §3 of the spec it returns the existing row for the URL or inserts a
fresh one; the fresh rowid is one past the largest id. -/
def get_or_create (db : Db) (product_url : String) : Db × ProductRow :=
  match db.products.find? (fun p => p.product_url == product_url) with
  | some p => (db, p)
  | none =>
    let p : ProductRow := ⟨(db.products.map (·.id)).foldr max 0 + 1, product_url⟩
    ({ db with products := db.products ++ [p] }, p)

/-- Modelled from the spec: store_analysis, whose body is not under src
(only its caller is).  Per §4.2 (store is append-only, one record per
confirmed success) it appends exactly one analyses row. -/
def store_analysis (db : Db) (now : Nat) (product_id : Nat)
    (profile_version : String) (model_used : String) (analysis_type : String)
    (analysis_data : Json) (tokens : TokenUsage) (cost_usd : ℚ) : Db :=
  { db with
    analyses := db.analyses ++
      [⟨product_id, profile_version, model_used, analysis_type, analysis_data,
        tokens.input, tokens.output, tokens.cache_read, tokens.cache_write,
        cost_usd, now⟩] }

/-- Modelled from the spec: CostService.log_cost, whose body is not under
src (only its caller is).  Per §3 (one CostLogEntry, scoped to the
session identifier) it appends exactly one cost_log row. -/
def log_cost (db : Db) (session_id : String) (model : String)
    (tokens : TokenUsage) (cost_usd : ℚ) (request_type : String) : Db :=
  { db with
    cost_log := db.cost_log ++
      [⟨session_id, model, tokens.input, tokens.output, tokens.cache_read,
        tokens.cache_write, cost_usd, request_type⟩] }

/-- What one orchestrator invocation produced: the final store state, the
returned response or propagated error, and how many gateway calls were
made. -/
structure AnalyzeOutcome where
  db : Db
  response : Except String AnalysisResponse
  gatewayCalls : Nat

/-- The response built on the cache-hit path:
AnalysisResponse(**cached).  cached is True, cost_usd is the stored
value, tokens_used holds the two selected counts, and profile_version
keeps its None default. -/
def responseOfCached (c : CachedHit) : AnalysisResponse :=
  ⟨c.analysis_data, c.cost_usd,
    [("input", c.tokens_input), ("output", c.tokens_output)],
    c.model_used, true, none⟩

/-- Embedded from analysis/service.py AnalysisService.analyze.
The single gateway call of the invocation is the provider argument; a
persistence failure (CacheError from store_analysis, §7) is the
storeOk flag — the source wraps neither step in a try block, so a raised
error propagates out of analyze.  now is the created_at timestamp of a
stored row. -/
def analyze (db : Db) (now : Nat) (provider : AiOutcome) (storeOk : Bool)
    (request : AnalysisRequest) : AnalyzeOutcome :=
  -- Step 1: get or create product
  let s1 := get_or_create db request.product_url
  let db1 := s1.1
  let product := s1.2
  -- Step 2: profile version (None when no profile is supplied)
  let profile_version := request.user_profile.map get_profile_version
  -- Step 3: check cache
  match get_cached_analysis db1 request.product_url profile_version request.mode with
  | some cached => ⟨db1, .ok (responseOfCached cached), 0⟩
  | none =>
    -- Step 4: call AI provider (analyze_product or basic_analysis)
    match provider with
    | .err e => ⟨db1, .error e, 1⟩
    | .ok result =>
      if storeOk then
        -- Step 5: store analysis
        let db2 := store_analysis db1 now product.id (profile_version.getD "")
          result.model_used request.mode result.analysis result.tokens
          result.cost_usd
        -- Step 6: log cost
        let db3 := log_cost db2 request.session_id result.model_used
          result.tokens result.cost_usd request.mode
        -- Step 7: return result
        ⟨db3, .ok ⟨result.analysis, result.cost_usd,
          [("input", result.tokens.input), ("output", result.tokens.output),
            ("cache_read", result.tokens.cache_read),
            ("cache_write", result.tokens.cache_write)],
          result.model_used, false, profile_version⟩, 1⟩
      else ⟨db1, .error "CacheError", 1⟩

/-! ### Client retry controller (extension/src/content/content.ts) -/

def MAX_RETRIES : Nat := 3

def RETRY_DELAYS : List Nat := [2000, 5000, 10000]

/-- Containment of one character list in another (ASCII substring test
backing the .includes calls of the source). -/
def containsSub (sub : List Char) : List Char → Bool
  | [] => sub.isEmpty
  | c :: rest => sub.isPrefixOf (c :: rest) || containsSub sub rest

/-- Lower-casing as applied by toLowerCase to the ASCII error messages of
the source. -/
def lowerStr (s : String) : String := String.mk (s.data.map Char.toLower)

/-- error.toLowerCase().includes(pattern). -/
def includesLower (error pattern : String) : Bool :=
  containsSub pattern.data (lowerStr error).data

/-- Embedded from content.ts shouldAutoRetry: auto-retry network and
transient errors, but not config issues. -/
def shouldAutoRetry (error : String) : Bool :=
  includesLower error "fetch" || includesLower error "network" ||
    includesLower error "timeout" || includesLower error "500" ||
    includesLower error "502" || includesLower error "503"

/-- The user-facing classification of content.ts parseError: a title, a
required user action, and an optional retry delay. -/
structure ErrorInfo where
  title : String
  action : String
  retryDelay : Option Nat

/-- Embedded from content.ts parseError: the first matching rule of the
classification chain wins. -/
def parseError (error : String) : ErrorInfo :=
  if includesLower error "api key" || includesLower error "unauthorized" ||
      includesLower error "401" then
    ⟨"API Key Required", "settings", none⟩
  else if includesLower error "rate limit" || includesLower error "429" ||
      includesLower error "too many" then
    ⟨"Rate Limited", "retry", some 60000⟩
  else if includesLower error "fetch" || includesLower error "network" ||
      includesLower error "connection" || includesLower error "failed to fetch" then
    ⟨"Connection Error", "retry", none⟩
  else if includesLower error "econnrefused" || includesLower error "localhost" then
    ⟨"Backend Offline", "none", none⟩
  else if includesLower error "extract" || includesLower error "product data" ||
      includesLower error "unsupported" then
    ⟨"Extraction Failed", "retry", none⟩
  else if includesLower error "claude" || includesLower error "anthropic" ||
      includesLower error "500" then
    ⟨"Analysis Service Error", "retry", none⟩
  else ⟨"Analysis Failed", "retry", none⟩

/-- One scripted outcome of an analysis attempt: the backend call either
succeeds or throws with a message. -/
inductive Attempt where
  | ok
  | fail (msg : String)

/-- Where a run of the controller ended: success (counter reset), an
error surfaced for manual action, or the script ran out while a retry
was still pending. -/
inductive RunEnd where
  | success
  | surfaced (msg : String)
  | pending

/-- Embedded from content.ts runAnalysis: each failure either schedules
an automatic retry after RETRY_DELAYS[retryCount] (last value repeating)
when retryCount < MAX_RETRIES and shouldAutoRetry holds, or surfaces the
error via renderError.  Returns the retry delays used (in order), the
final retryCount, and how the run ended. -/
def runAnalysisFrom : Nat → List Attempt → List Nat × Nat × RunEnd
  | count, [] => ([], count, .pending)
  | _, .ok :: _ => ([], 0, .success)
  | count, .fail msg :: rest =>
    if count < MAX_RETRIES && shouldAutoRetry msg then
      let delay := RETRY_DELAYS.getD count (RETRY_DELAYS.getLastD 0)
      let next := runAnalysisFrom (count + 1) rest
      (delay :: next.1, next.2.1, next.2.2)
    else ([], count, .surfaced msg)

/-- A full run of the controller from the initial retryCount of zero. -/
def runAnalysis (attempts : List Attempt) : List Nat × Nat × RunEnd :=
  runAnalysisFrom 0 attempts

/-! ### Background message handler (extension/src/background/background.ts) -/

/-- A value thrown by a handler: an Error object with a message, or any
other thrown value. -/
inductive JsThrown where
  | errObj (message : String)
  | other

/-- error instanceof Error ? error.message : "Unknown error". -/
def errorMessageOf : JsThrown → String
  | .errObj m => m
  | .other => "Unknown error"

/-- The MessageResponse union of shared/types.ts:
on success a data payload, otherwise an error string. -/
inductive MessageResponse where
  | ok (data : Json)
  | err (error : String)

/-- An incoming runtime message: a type tag and the analyze payload
fields (unused by the other message kinds). -/
structure RuntimeMessage where
  type : String
  url : String
  html : String

/-- The api and storage collaborators the background script awaits; each
call either returns a payload or throws. -/
structure BackgroundEnv where
  analyzeProduct : String → String → Except JsThrown Json
  getProfile : Except JsThrown Json
  testConnection : Except JsThrown Json
  getSettings : Except JsThrown Json

/-- Embedded from background.ts handleMessage: the switch over
message.type inside a try block whose catch returns
success: false with the extracted message. -/
def handleMessage (env : BackgroundEnv) (message : RuntimeMessage) : MessageResponse :=
  let body : Except JsThrown MessageResponse :=
    if message.type = "ANALYZE_PRODUCT" then
      (env.analyzeProduct message.url message.html).map MessageResponse.ok
    else if message.type = "GET_PROFILE" then
      env.getProfile.map MessageResponse.ok
    else if message.type = "TEST_CONNECTION" then
      env.testConnection.map MessageResponse.ok
    else if message.type = "GET_SETTINGS" then
      env.getSettings.map MessageResponse.ok
    else
      .ok (.err "Unknown message type")
  match body with
  | .ok r => r
  | .error e => .err (errorMessageOf e)

/-! ### Properties of profile versioning -/

/-- A list sorted by key with pairwise-distinct keys is sorted by the
strict key order. -/
theorem sorted_entryLT {l : List (String × List Char)} (hs : List.Sorted entryLE l)
    (hn : (l.map Prod.fst).Nodup) : List.Sorted entryLT l := by
  have hne : l.Pairwise (fun p q : String × List Char => p.1 ≠ q.1) := by
    simpa [List.Nodup, List.pairwise_map] using hn
  exact (hs.and hne).imp (fun h => lt_of_le_of_ne h.1 h.2)

/-- Two permuted key-distinct entry lists sort to the same list. -/
theorem sortEntries_eq_of_perm {l₁ l₂ : List (String × List Char)}
    (hperm : l₁.Perm l₂) (hnodup : (l₁.map Prod.fst).Nodup) :
    sortEntries l₁ = sortEntries l₂ := by
  have hp : (sortEntries l₁).Perm (sortEntries l₂) :=
    ((List.perm_insertionSort entryLE l₁).trans hperm).trans
      (List.perm_insertionSort entryLE l₂).symm
  have hn₁ : ((sortEntries l₁).map Prod.fst).Nodup :=
    (((List.perm_insertionSort entryLE l₁).map Prod.fst).nodup_iff).mpr hnodup
  have hn₂ : ((sortEntries l₂).map Prod.fst).Nodup :=
    ((hp.map Prod.fst).nodup_iff).mp hn₁
  exact List.eq_of_perm_of_sorted hp
    (sorted_entryLT (List.sorted_insertionSort entryLE l₁) hn₁)
    (sorted_entryLT (List.sorted_insertionSort entryLE l₂) hn₂)

/-- The serialized entries of an item list, positionally. -/
theorem dumpsPairs_ofList (l : List (String × Json)) :
    dumpsPairs (JsonPairs.ofList l) =
      l.map (fun kv => (kv.1, dumpsChars kv.2)) := by
  induction l with
  | nil => rfl
  | cons kv rest ih => simp [JsonPairs.ofList, dumpsPairs, ih]

/-- The compression of a block always yields the eight word registers. -/
theorem compressBlock_length (hs block : List Nat) :
    (compressBlock hs block).length = 8 := rfl

/-- The digest words are always eight. -/
theorem sha256words_length (msg : List Nat) : (sha256words msg).length = 8 := by
  have h : ∀ (bs : List (List Nat)) (hs : List Nat), hs.length = 8 →
      (bs.foldl compressBlock hs).length = 8 := by
    intro bs
    induction bs with
    | nil => intro hs h; simpa using h
    | cons b rest ih =>
      intro hs _
      exact ih (compressBlock hs b) (compressBlock_length hs b)
  exact h (chunks64 (padMessage msg)) H256 (by simp [H256])

/-- Each digest word contributes eight hex characters. -/
theorem wordHex_length (w : Nat) : (wordHex w).length = 8 := by
  simp [wordHex]

/-- The hex digest has 64 characters. -/
theorem sha256hexChars_length (msg : List Nat) : (sha256hexChars msg).length = 64 := by
  have h : ∀ ws : List Nat, ((ws.map wordHex).flatten).length = 8 * ws.length := by
    intro ws
    induction ws with
    | nil => simp
    | cons w rest ih => simp [ih, wordHex_length, Nat.mul_succ, Nat.add_comm]
  rw [sha256hexChars, h, sha256words_length]

/-- The version string always has the fixed width of 16 characters. -/
theorem get_profile_version_length (p : Json) : (get_profile_version p).length = 16 := by
  have h : (get_profile_version p).length =
      ((sha256hexChars (strBytes (dumps p))).take 16).length := rfl
  rw [h, List.length_take, sha256hexChars_length]
  decide

/-- C4: reordering the mapping keys of a profile never changes its
version: the serializer sorts the keys, so two key-permuted objects
normalize identically and hash identically.  The version is a pure
function of the profile value (formatting of any concrete input text
never reaches it), and its output width is fixed at 16 characters. -/
theorem get_profile_version_reorder (l₁ l₂ : List (String × Json))
    (hperm : l₁.Perm l₂) (hnodup : (l₁.map Prod.fst).Nodup) :
    get_profile_version (Json.mkObj l₁) = get_profile_version (Json.mkObj l₂) ∧
      ∀ p : Json, (get_profile_version p).length = 16 := by
  refine ⟨?_, get_profile_version_length⟩
  have hmap : (l₁.map (fun kv => (kv.1, dumpsChars kv.2))).Perm
      (l₂.map (fun kv => (kv.1, dumpsChars kv.2))) :=
    hperm.map _
  have hkeys : ((l₁.map (fun kv => (kv.1, dumpsChars kv.2))).map Prod.fst).Nodup := by
    rw [List.map_map]
    exact hnodup
  have hsort := sortEntries_eq_of_perm hmap hkeys
  have h : dumpsChars (Json.mkObj l₁) = dumpsChars (Json.mkObj l₂) := by
    rw [Json.mkObj, Json.mkObj, dumpsChars, dumpsChars,
      dumpsPairs_ofList, dumpsPairs_ofList, hsort]
  rw [get_profile_version, get_profile_version, dumps, dumps, h]

/-- Witness for C4 at a concrete two-key profile. -/
theorem get_profile_version_reorder_witness :
    get_profile_version
        (Json.mkObj [("color_palette", Json.str "black"), ("body_type", Json.str "petite")]) =
      get_profile_version
        (Json.mkObj [("body_type", Json.str "petite"), ("color_palette", Json.str "black")]) :=
  (get_profile_version_reorder _ _ (List.Perm.swap _ _ _) (by decide)).1

/-! ### Properties of the cost calculation -/

/-- Rounding fixes integers. -/
theorem roundHalfEven_intCast (n : ℤ) : roundHalfEven ((n : ℚ)) = n := by
  unfold roundHalfEven
  rw [Int.floor_intCast]
  norm_num

/-- Rounding a nonnegative value stays nonnegative. -/
theorem roundHalfEven_nonneg {q : ℚ} (h : 0 ≤ q) : 0 ≤ roundHalfEven q := by
  have hf : (0 : ℤ) ≤ Int.floor q := Int.floor_nonneg.mpr h
  unfold roundHalfEven
  split_ifs <;> omega

/-- Six-decimal rounding fixes integers. -/
theorem roundTo6_intCast (n : ℤ) : roundTo6 ((n : ℚ)) = n := by
  unfold roundTo6
  rw [show ((n : ℚ) * 1000000) = ((n * 1000000 : ℤ) : ℚ) by push_cast; ring]
  rw [roundHalfEven_intCast]
  push_cast
  field_simp

/-- Six-decimal rounding of a nonnegative value stays nonnegative. -/
theorem roundTo6_nonneg {q : ℚ} (h : 0 ≤ q) : 0 ≤ roundTo6 q := by
  unfold roundTo6
  have h2 := roundHalfEven_nonneg (q := q * 1000000) (by positivity)
  exact div_nonneg (by exact_mod_cast h2) (by norm_num)

/-- The cost expression at a known pricing record. -/
theorem calculate_cost_known (t : TokenUsage) (m : String) (p : Pricing)
    (hp : PRICING m = some p) :
    calculate_cost t m =
      some (roundTo6 ((t.input : ℚ) * p.input / 1000000 +
        (t.output : ℚ) * p.output / 1000000 +
        (t.cache_read : ℚ) * p.cache_read / 1000000 +
        (t.cache_write : ℚ) * p.cache_write / 1000000)) := by
  rw [calculate_cost, hp, Option.map_some']

/-- C5 as stated is false on the code: calculate_cost performs no
validation of the token counts, so a negative count is not rejected and
produces a negative cost.  With input = -1000000 on the Sonnet model the
result is -3 USD. -/
theorem calculate_cost_negative_counterexample :
    calculate_cost ⟨-1000000, 0, 0, 0⟩ SONNET_4_5 = some (-3) ∧ ((-3 : ℚ) < 0) := by
  refine ⟨?_, by norm_num⟩
  rw [calculate_cost_known ⟨-1000000, 0, 0, 0⟩ SONNET_4_5 ⟨3, 15, 3/10, 15/4⟩ rfl]
  have harg : (((-1000000 : ℤ) : ℚ)) * 3 / 1000000 + ((0 : ℤ) : ℚ) * 15 / 1000000 +
      ((0 : ℤ) : ℚ) * (3/10) / 1000000 + ((0 : ℤ) : ℚ) * (15/4) / 1000000 =
      (((-3 : ℤ) : ℚ)) := by
    push_cast
    norm_num
  rw [show ((⟨-1000000, 0, 0, 0⟩ : TokenUsage).input : ℚ) = ((-1000000 : ℤ) : ℚ) from rfl]
  rw [show ((⟨-1000000, 0, 0, 0⟩ : TokenUsage).output : ℚ) = ((0 : ℤ) : ℚ) from rfl]
  rw [show ((⟨-1000000, 0, 0, 0⟩ : TokenUsage).cache_read : ℚ) = ((0 : ℤ) : ℚ) from rfl]
  rw [show ((⟨-1000000, 0, 0, 0⟩ : TokenUsage).cache_write : ℚ) = ((0 : ℤ) : ℚ) from rfl]
  rw [harg, roundTo6_intCast]
  norm_num

/-- C5 amended: for nonnegative token counts the cost equals the sum over
the four categories of tokens times per-million rate divided by
1,000,000, rounded to six decimal places; it is 0 when every count is 0
and never negative; an unrecognized model identifier yields an error.
Negative token counts, however, are not rejected by the code: they flow
through the formula (see the counterexample). -/
theorem calculate_cost_properties (t : TokenUsage) (m : String)
    (h1 : 0 ≤ t.input) (h2 : 0 ≤ t.output) (h3 : 0 ≤ t.cache_read)
    (h4 : 0 ≤ t.cache_write) :
    calculate_cost t m = cost_spec t m ∧
      (PRICING m = none → calculate_cost t m = none) ∧
      (∀ c, calculate_cost t m = some c → 0 ≤ c) ∧
      calculate_cost ⟨0, 0, 0, 0⟩ m = (PRICING m).map (fun _ => 0) := by
  refine ⟨?_, ?_, ?_, ?_⟩
  · cases hp : PRICING m with
    | none => rw [calculate_cost, cost_spec, hp]; rfl
    | some p =>
      rw [calculate_cost_known t m p hp, cost_spec, hp, Option.map_some']
      congr 1
      congr 1
      simp only [List.map_cons, List.map_nil, List.sum_cons, List.sum_nil]
      ring
  · intro hp
    rw [calculate_cost, hp]
    rfl
  · intro c hc
    have hps : 0 < (1000000 : ℚ) := by norm_num
    rcases hm : PRICING m with _ | p
    · rw [calculate_cost, hm] at hc
      exact absurd hc (by simp)
    · rw [calculate_cost_known t m p hm, Option.some_inj] at hc
      have hpos : (0 : ℚ) ≤ p.input ∧ (0 : ℚ) ≤ p.output ∧ (0 : ℚ) ≤ p.cache_read ∧
          (0 : ℚ) ≤ p.cache_write := by
        rw [PRICING] at hm
        by_cases hs : m = SONNET_4_5
        · rw [if_pos hs, Option.some_inj] at hm
          rw [← hm]
          norm_num
        · rw [if_neg hs] at hm
          by_cases hh : m = HAIKU_4_5
          · rw [if_pos hh, Option.some_inj] at hm
            rw [← hm]
            norm_num
          · rw [if_neg hh] at hm
            cases hm
      have ht1 : (0 : ℚ) ≤ (t.input : ℚ) := by exact_mod_cast h1
      have ht2 : (0 : ℚ) ≤ (t.output : ℚ) := by exact_mod_cast h2
      have ht3 : (0 : ℚ) ≤ (t.cache_read : ℚ) := by exact_mod_cast h3
      have ht4 : (0 : ℚ) ≤ (t.cache_write : ℚ) := by exact_mod_cast h4
      rw [← hc]
      apply roundTo6_nonneg
      have e1 := div_nonneg (mul_nonneg ht1 hpos.1) hps.le
      have e2 := div_nonneg (mul_nonneg ht2 hpos.2.1) hps.le
      have e3 := div_nonneg (mul_nonneg ht3 hpos.2.2.1) hps.le
      have e4 := div_nonneg (mul_nonneg ht4 hpos.2.2.2) hps.le
      exact add_nonneg (add_nonneg (add_nonneg e1 e2) e3) e4
  · cases hp : PRICING m with
    | none => rw [calculate_cost, hp]; rfl
    | some p =>
      rw [calculate_cost_known ⟨0, 0, 0, 0⟩ m p hp, Option.map_some', Option.some_inj]
      have harg : (((0 : ℤ) : ℚ)) * p.input / 1000000 + ((0 : ℤ) : ℚ) * p.output / 1000000 +
          ((0 : ℤ) : ℚ) * p.cache_read / 1000000 + ((0 : ℤ) : ℚ) * p.cache_write / 1000000 =
          (((0 : ℤ) : ℚ)) := by
        push_cast
        ring
      rw [show ((⟨0, 0, 0, 0⟩ : TokenUsage).input : ℚ) = ((0 : ℤ) : ℚ) from rfl]
      rw [show ((⟨0, 0, 0, 0⟩ : TokenUsage).output : ℚ) = ((0 : ℤ) : ℚ) from rfl]
      rw [show ((⟨0, 0, 0, 0⟩ : TokenUsage).cache_read : ℚ) = ((0 : ℤ) : ℚ) from rfl]
      rw [show ((⟨0, 0, 0, 0⟩ : TokenUsage).cache_write : ℚ) = ((0 : ℤ) : ℚ) from rfl]
      rw [harg, roundTo6_intCast]
      norm_num

/-- Witness for the amended C5 at a concrete usage and the Sonnet model. -/
theorem calculate_cost_properties_witness :
    calculate_cost ⟨1000, 2000, 3000, 4000⟩ SONNET_4_5 =
        cost_spec ⟨1000, 2000, 3000, 4000⟩ SONNET_4_5 ∧
      calculate_cost ⟨0, 0, 0, 0⟩ SONNET_4_5 = (PRICING SONNET_4_5).map (fun _ => 0) :=
  ⟨(calculate_cost_properties ⟨1000, 2000, 3000, 4000⟩ SONNET_4_5 (by decide) (by decide)
      (by decide) (by decide)).1,
   (calculate_cost_properties ⟨1000, 2000, 3000, 4000⟩ SONNET_4_5 (by decide) (by decide)
      (by decide) (by decide)).2.2.2⟩

/-! ### Properties of the cache lookup -/

/-- The lookup finds nothing only in the empty list. -/
theorem latestRow_eq_none {l : List AnalysisRow} (h : latestRow l = none) : l = [] := by
  cases l with
  | nil => rfl
  | cons x rest =>
    rw [latestRow] at h
    cases hr : latestRow rest with
    | none => rw [hr] at h; cases h
    | some best => rw [hr] at h; cases h

/-- The selected row is in the list. -/
theorem latestRow_mem :
    ∀ (l : List AnalysisRow) (r : AnalysisRow), latestRow l = some r → r ∈ l := by
  intro l
  induction l with
  | nil => intro r h; cases h
  | cons x rest ih =>
    intro r h
    rw [latestRow] at h
    cases hr : latestRow rest with
    | none =>
      rw [hr] at h
      cases h
      exact List.mem_cons_self _ _
    | some best =>
      rw [hr] at h
      rw [Option.some_inj] at h
      by_cases hc : x.created_at ≤ best.created_at
      · rw [if_pos hc] at h
        exact List.mem_cons_of_mem _ (h ▸ ih best hr)
      · rw [if_neg hc] at h
        exact h ▸ List.mem_cons_self _ _

/-- The selected row has the greatest created_at of the list. -/
theorem latestRow_maximal :
    ∀ (l : List AnalysisRow) (r : AnalysisRow), latestRow l = some r →
      ∀ x ∈ l, x.created_at ≤ r.created_at := by
  intro l
  induction l with
  | nil => intro r h; cases h
  | cons y rest ih =>
    intro r h x hx
    rw [latestRow] at h
    cases hr : latestRow rest with
    | none =>
      rw [hr] at h
      cases h
      rcases List.mem_cons.mp hx with hxy | hxr
      · exact hxy ▸ le_refl _
      · rw [latestRow_eq_none hr] at hxr
        cases hxr
    | some best =>
      rw [hr] at h
      rw [Option.some_inj] at h
      rcases List.mem_cons.mp hx with hxy | hxr
      · subst hxy
        by_cases hc : x.created_at ≤ best.created_at
        · rw [if_pos hc] at h
          exact h ▸ hc
        · rw [if_neg hc] at h
          exact h ▸ le_refl _
      · have hb := ih best hr x hxr
        by_cases hc : y.created_at ≤ best.created_at
        · rw [if_pos hc] at h
          exact h ▸ hb
        · rw [if_neg hc] at h
          exact h ▸ (hb.trans (le_of_not_le hc))

/-- The key of the spec: an analyses row belongs to the lookup key
(item identity via the products table, profile version with the
empty-string sentinel for None, mode) of a store. -/
def keyMatches (db : Db) (a : AnalysisRow) (url : String) (ver : Option String)
    (mode : String) : Prop :=
  ∃ p ∈ db.products, p.product_url = url ∧ a.product_id = p.id ∧
    a.profile_version = ver.getD "" ∧ a.analysis_type = mode

/-- C3: the cache lookup returns the most recently created record whose
item identity, profile version, and mode all equal the key, and returns
none when no stored record matches on all three fields — a mismatch on
any one field excludes a record, even if the other two match.  The
products table has unique URLs (schema constraint), hence the Nodup
hypothesis. -/
theorem lookupRow_exact_latest (db : Db) (url : String) (ver : Option String)
    (mode : String) (hnodup : (db.products.map (fun p => p.product_url)).Nodup) :
    (∀ r, lookupRow db url ver mode = some r →
      r ∈ db.analyses ∧ keyMatches db r url ver mode ∧
        ∀ x ∈ db.analyses, keyMatches db x url ver mode →
          x.created_at ≤ r.created_at) ∧
    (lookupRow db url ver mode = none →
      ∀ x ∈ db.analyses, ¬ keyMatches db x url ver mode) := by
  cases hfind : db.products.find? (fun p => p.product_url == url) with
  | none =>
    have hno : ∀ p ∈ db.products, p.product_url ≠ url := by
      intro p hp
      have := List.find?_eq_none.mp hfind p hp
      simpa using this
    constructor
    · intro r h
      rw [lookupRow, hfind] at h
      cases h
    · intro _ x _ hk
      obtain ⟨p, hp, hurl, _⟩ := hk
      exact hno p hp hurl
  | some p =>
    have hpurl : p.product_url = url := by
      have := List.find?_some hfind
      simpa using this
    have hpmem : p ∈ db.products := List.mem_of_find?_eq_some hfind
    have hsame : ∀ p2 ∈ db.products, p2.product_url = url → p2 = p := by
      intro p2 hp2 hurl2
      exact List.inj_on_of_nodup_map hnodup hp2 hpmem (hurl2.trans hpurl.symm)
    have hmem_filter : ∀ x, keyMatches db x url ver mode →
        x ∈ db.analyses →
        x ∈ db.analyses.filter (rowMatches p.id ver mode) := by
      intro x hk hx
      obtain ⟨p2, hp2, hurl2, hpid2, hver2, hty2⟩ := hk
      have hpp : p2 = p := hsame p2 hp2 hurl2
      subst hpp
      refine List.mem_filter.mpr ⟨hx, ?_⟩
      simp [rowMatches, hpid2, hver2, hty2]
    constructor
    · intro r h
      rw [lookupRow, hfind] at h
      have hrf := latestRow_mem _ r h
      have hr := List.mem_filter.mp hrf
      have hrm : r.product_id = p.id ∧ r.profile_version = ver.getD "" ∧
          r.analysis_type = mode := by
        have := hr.2
        simp [rowMatches] at this
        exact ⟨this.1.1, this.1.2, this.2⟩
      refine ⟨hr.1, ⟨p, hpmem, hpurl, hrm.1, hrm.2.1, hrm.2.2⟩, ?_⟩
      intro x hx hk
      exact latestRow_maximal _ r h x (hmem_filter x hk hx)
    · intro h x hx hk
      rw [lookupRow, hfind] at h
      have hempty := latestRow_eq_none h
      have := hmem_filter x hk hx
      rw [hempty] at this
      cases this

/-- Witness for C3: a store with two products and three analyses; the
lookup under the key returns the later of the two matching rows and it
dominates every matching row. -/
theorem lookupRow_exact_latest_witness :
    lookupRow
        ⟨[⟨1, "u1"⟩, ⟨2, "u2"⟩],
         [⟨1, "v", "m", "full", Json.null, 1, 1, 0, 0, 1, 10⟩,
          ⟨1, "v", "m", "full", Json.null, 2, 2, 0, 0, 1, 20⟩,
          ⟨1, "w", "m", "full", Json.null, 3, 3, 0, 0, 1, 30⟩], []⟩
        "u1" (some "v") "full" =
      some ⟨1, "v", "m", "full", Json.null, 2, 2, 0, 0, 1, 20⟩ ∧
    keyMatches
        ⟨[⟨1, "u1"⟩, ⟨2, "u2"⟩],
         [⟨1, "v", "m", "full", Json.null, 1, 1, 0, 0, 1, 10⟩,
          ⟨1, "v", "m", "full", Json.null, 2, 2, 0, 0, 1, 20⟩,
          ⟨1, "w", "m", "full", Json.null, 3, 3, 0, 0, 1, 30⟩], []⟩
        ⟨1, "v", "m", "full", Json.null, 2, 2, 0, 0, 1, 20⟩ "u1" (some "v") "full" :=
  ⟨rfl,
   ((lookupRow_exact_latest
      ⟨[⟨1, "u1"⟩, ⟨2, "u2"⟩],
       [⟨1, "v", "m", "full", Json.null, 1, 1, 0, 0, 1, 10⟩,
        ⟨1, "v", "m", "full", Json.null, 2, 2, 0, 0, 1, 20⟩,
        ⟨1, "w", "m", "full", Json.null, 3, 3, 0, 0, 1, 30⟩], []⟩
      "u1" (some "v") "full" (by decide)).1
      ⟨1, "v", "m", "full", Json.null, 2, 2, 0, 0, 1, 20⟩ rfl).2.1⟩

/-! ### Properties of the orchestrator -/

/-- Step 1 only touches the products table. -/
theorem get_or_create_tables (db : Db) (url : String) :
    (get_or_create db url).1.analyses = db.analyses ∧
      (get_or_create db url).1.cost_log = db.cost_log := by
  rw [get_or_create]
  cases hf : db.products.find? (fun p => p.product_url == url) with
  | none => exact ⟨rfl, rfl⟩
  | some p => exact ⟨rfl, rfl⟩

/-- C1 corrected: on a cache hit the orchestrator performs zero gateway
calls, returns the stored record with cached=true, and writes nothing —
but the cost field of the response is the stored cost of the original
analysis (AnalysisResponse(**cached) passes cost_usd through), not 0. -/
theorem analyze_cache_hit (db : Db) (now : Nat) (provider : AiOutcome)
    (storeOk : Bool) (request : AnalysisRequest) (c : CachedHit)
    (h : get_cached_analysis (get_or_create db request.product_url).1
      request.product_url (request.user_profile.map get_profile_version)
      request.mode = some c) :
    (analyze db now provider storeOk request).gatewayCalls = 0 ∧
    (analyze db now provider storeOk request).response = .ok (responseOfCached c) ∧
    (responseOfCached c).cached = true ∧
    (responseOfCached c).cost_usd = c.cost_usd ∧
    (analyze db now provider storeOk request).db.analyses = db.analyses ∧
    (analyze db now provider storeOk request).db.cost_log = db.cost_log := by
  have hga := get_or_create_tables db request.product_url
  simp only [analyze, h]
  exact ⟨trivial, trivial, rfl, rfl, hga.1, hga.2⟩

/-- Witness for the corrected C1: a concrete hit returns the stored
record (stored cost 1) without a gateway call. -/
theorem analyze_cache_hit_witness :
    (analyze ⟨[⟨1, "u"⟩], [⟨1, "", "m", "basic", Json.null, 7, 8, 0, 0, 1, 5⟩], []⟩
      9 (.err "unused") true ⟨"u", none, "basic", true, "s"⟩).gatewayCalls = 0 ∧
    (analyze ⟨[⟨1, "u"⟩], [⟨1, "", "m", "basic", Json.null, 7, 8, 0, 0, 1, 5⟩], []⟩
      9 (.err "unused") true ⟨"u", none, "basic", true, "s"⟩).response =
      .ok (responseOfCached ⟨Json.null, "m", 7, 8, 1⟩) :=
  ⟨(analyze_cache_hit ⟨[⟨1, "u"⟩], [⟨1, "", "m", "basic", Json.null, 7, 8, 0, 0, 1, 5⟩], []⟩
      9 (.err "unused") true ⟨"u", none, "basic", true, "s"⟩
      ⟨Json.null, "m", 7, 8, 1⟩ rfl).1,
   (analyze_cache_hit ⟨[⟨1, "u"⟩], [⟨1, "", "m", "basic", Json.null, 7, 8, 0, 0, 1, 5⟩], []⟩
      9 (.err "unused") true ⟨"u", none, "basic", true, "s"⟩
      ⟨Json.null, "m", 7, 8, 1⟩ rfl).2.1⟩

/-- C1 as stated is false on the code: this concrete cache hit makes
zero gateway calls and returns cached=true, but the cost_usd of the
response is the stored cost 1, not 0. -/
theorem analyze_cache_hit_cost_counterexample :
    (analyze ⟨[⟨1, "u"⟩], [⟨1, "", "m", "basic", Json.null, 7, 8, 0, 0, 1, 5⟩], []⟩
      9 (.err "unused") true ⟨"u", none, "basic", true, "s"⟩).gatewayCalls = 0 ∧
    (analyze ⟨[⟨1, "u"⟩], [⟨1, "", "m", "basic", Json.null, 7, 8, 0, 0, 1, 5⟩], []⟩
      9 (.err "unused") true ⟨"u", none, "basic", true, "s"⟩).response =
      .ok ⟨Json.null, 1, [("input", 7), ("output", 8)], "m", true, none⟩ ∧
    (1 : ℚ) ≠ 0 := by
  refine ⟨rfl, rfl, by norm_num⟩

/-- C2: on a cache miss, a successful inference call appends exactly one
analyses row and exactly one cost_log row; a failed call returns the
error and leaves both tables exactly as they were (the classified error
propagates untouched; nothing is written). -/
theorem analyze_miss_atomicity (db : Db) (now : Nat) (r : AiResult) (e : String)
    (storeOk : Bool) (request : AnalysisRequest)
    (hmiss : get_cached_analysis (get_or_create db request.product_url).1
      request.product_url (request.user_profile.map get_profile_version)
      request.mode = none) :
    ((analyze db now (.ok r) true request).db.analyses =
        db.analyses ++
          [⟨(get_or_create db request.product_url).2.id,
            (request.user_profile.map get_profile_version).getD "",
            r.model_used, request.mode, r.analysis, r.tokens.input,
            r.tokens.output, r.tokens.cache_read, r.tokens.cache_write,
            r.cost_usd, now⟩] ∧
      (analyze db now (.ok r) true request).db.cost_log =
        db.cost_log ++
          [⟨request.session_id, r.model_used, r.tokens.input, r.tokens.output,
            r.tokens.cache_read, r.tokens.cache_write, r.cost_usd,
            request.mode⟩]) ∧
    ((analyze db now (.err e) storeOk request).response = .error e ∧
      (analyze db now (.err e) storeOk request).db.analyses = db.analyses ∧
      (analyze db now (.err e) storeOk request).db.cost_log = db.cost_log) := by
  have hga := get_or_create_tables db request.product_url
  constructor
  · simp only [analyze, hmiss, store_analysis, log_cost, if_true]
    exact ⟨by rw [hga.1], by rw [hga.2]⟩
  · simp only [analyze, hmiss]
    exact ⟨trivial, hga.1, hga.2⟩

/-- Witness for C2 on a concrete empty store: one row lands in each of
the two tables on success, none on failure. -/
theorem analyze_miss_atomicity_witness :
    (analyze ⟨[], [], []⟩ 9 (.ok ⟨Json.null, ⟨1, 2, 3, 4⟩, 1, "m"⟩) true
        ⟨"u", none, "basic", true, "s"⟩).db.cost_log =
      [] ++ [⟨"s", "m", 1, 2, 3, 4, 1, "basic"⟩] ∧
    (analyze ⟨[], [], []⟩ 9 (.err "boom") true
        ⟨"u", none, "basic", true, "s"⟩).db.analyses = [] :=
  ⟨(analyze_miss_atomicity ⟨[], [], []⟩ 9 ⟨Json.null, ⟨1, 2, 3, 4⟩, 1, "m"⟩ "boom"
      true ⟨"u", none, "basic", true, "s"⟩ rfl).1.2,
   (analyze_miss_atomicity ⟨[], [], []⟩ 9 ⟨Json.null, ⟨1, 2, 3, 4⟩, 1, "m"⟩ "boom"
      true ⟨"u", none, "basic", true, "s"⟩ rfl).2.2.1⟩

/-- Shared unfolding of the miss-and-success path: one gateway call, and
the analyses table gains exactly the row keyed by the resolved profile
version and the requested mode. -/
theorem analyze_miss_ok_eq (db : Db) (now : Nat) (r : AiResult)
    (request : AnalysisRequest)
    (hmiss : get_cached_analysis (get_or_create db request.product_url).1
      request.product_url (request.user_profile.map get_profile_version)
      request.mode = none) :
    (analyze db now (.ok r) true request).gatewayCalls = 1 ∧
    (analyze db now (.ok r) true request).db.analyses =
      (get_or_create db request.product_url).1.analyses ++
        [⟨(get_or_create db request.product_url).2.id,
          (request.user_profile.map get_profile_version).getD "",
          r.model_used, request.mode, r.analysis, r.tokens.input,
          r.tokens.output, r.tokens.cache_read, r.tokens.cache_write,
          r.cost_usd, now⟩] := by
  simp only [analyze, hmiss, store_analysis, log_cost, if_true]
  exact ⟨trivial, trivial⟩

/-- The version string is never the empty sentinel: it has 16 characters. -/
theorem get_profile_version_ne_sentinel (p : Json) : get_profile_version p ≠ "" := by
  intro h
  have h16 := get_profile_version_length p
  rw [h] at h16
  have h0 : ("" : String).length = 0 := rfl
  rw [h0] at h16
  cases h16

/-- C7 corrected: the version used for cache lookup and store is derived
from the presence of a profile alone, not from the mode: a basic-mode
request that carries a profile looks up and stores under the profile
version hash, which is never the no-profile sentinel. -/
theorem analyze_basic_version_rule (db : Db) (now : Nat) (r : AiResult)
    (request : AnalysisRequest) (P : Json)
    (hmode : request.mode = "basic") (hp : request.user_profile = some P)
    (hmiss : get_cached_analysis (get_or_create db request.product_url).1
      request.product_url (some (get_profile_version P)) "basic" = none) :
    (analyze db now (.ok r) true request).gatewayCalls = 1 ∧
    (analyze db now (.ok r) true request).db.analyses =
      db.analyses ++
        [⟨(get_or_create db request.product_url).2.id, get_profile_version P,
          r.model_used, "basic", r.analysis, r.tokens.input, r.tokens.output,
          r.tokens.cache_read, r.tokens.cache_write, r.cost_usd, now⟩] ∧
    get_profile_version P ≠ "" := by
  have hmiss2 : get_cached_analysis (get_or_create db request.product_url).1
      request.product_url (request.user_profile.map get_profile_version)
      request.mode = none := by
    rw [hp, Option.map_some', hmode]
    exact hmiss
  have h := analyze_miss_ok_eq db now r request hmiss2
  have hga := get_or_create_tables db request.product_url
  refine ⟨h.1, ?_, get_profile_version_ne_sentinel P⟩
  rw [h.2, hga.1, hp, hmode, Option.map_some', Option.getD_some]

/-- Witness for the corrected C7: a basic-mode request carrying a
concrete one-key profile stores its result under the profile hash. -/
theorem analyze_basic_version_rule_witness :
    (analyze ⟨[], [], []⟩ 9 (.ok ⟨Json.null, ⟨1, 2, 3, 4⟩, 1, "m"⟩) true
        ⟨"u", some (Json.mkObj [("body_type", Json.str "petite")]), "basic", true,
          "s"⟩).db.analyses =
      [] ++
        [⟨1, get_profile_version (Json.mkObj [("body_type", Json.str "petite")]),
          "m", "basic", Json.null, 1, 2, 3, 4, 1, 9⟩] ∧
    get_profile_version (Json.mkObj [("body_type", Json.str "petite")]) ≠ "" :=
  ⟨(analyze_basic_version_rule ⟨[], [], []⟩ 9 ⟨Json.null, ⟨1, 2, 3, 4⟩, 1, "m"⟩
      ⟨"u", some (Json.mkObj [("body_type", Json.str "petite")]), "basic", true, "s"⟩
      (Json.mkObj [("body_type", Json.str "petite")]) rfl rfl rfl).2.1,
   (analyze_basic_version_rule ⟨[], [], []⟩ 9 ⟨Json.null, ⟨1, 2, 3, 4⟩, 1, "m"⟩
      ⟨"u", some (Json.mkObj [("body_type", Json.str "petite")]), "basic", true, "s"⟩
      (Json.mkObj [("body_type", Json.str "petite")]) rfl rfl rfl).2.2⟩

/-- C7 as stated is false on the code: a basic-mode request that carries
a profile does not use the no-profile sentinel.  A basic analysis is
stored under the sentinel (a sentinel lookup hits it), yet the same
basic-mode request with a profile misses the cache, calls the gateway,
and stores a second record under the profile hash. -/
theorem analyze_basic_profile_counterexample :
    get_cached_analysis
        ⟨[⟨1, "u"⟩], [⟨1, "", "mH", "basic", Json.null, 1, 1, 0, 0, 1, 5⟩], []⟩
        "u" none "basic" = some ⟨Json.null, "mH", 1, 1, 1⟩ ∧
    (analyze ⟨[⟨1, "u"⟩], [⟨1, "", "mH", "basic", Json.null, 1, 1, 0, 0, 1, 5⟩], []⟩
        9 (.ok ⟨Json.null, ⟨1, 2, 3, 4⟩, 1, "m"⟩) true
        ⟨"u", some (Json.mkObj [("body_type", Json.str "petite")]), "basic", true,
          "s"⟩).gatewayCalls = 1 ∧
    (analyze ⟨[⟨1, "u"⟩], [⟨1, "", "mH", "basic", Json.null, 1, 1, 0, 0, 1, 5⟩], []⟩
        9 (.ok ⟨Json.null, ⟨1, 2, 3, 4⟩, 1, "m"⟩) true
        ⟨"u", some (Json.mkObj [("body_type", Json.str "petite")]), "basic", true,
          "s"⟩).db.analyses.map (fun a => a.profile_version) =
      ["", get_profile_version (Json.mkObj [("body_type", Json.str "petite")])] ∧
    get_profile_version (Json.mkObj [("body_type", Json.str "petite")]) ≠ "" := by
  have hne := get_profile_version_ne_sentinel (Json.mkObj [("body_type", Json.str "petite")])
  have hbeq : (("" : String) ==
      get_profile_version (Json.mkObj [("body_type", Json.str "petite")])) = false := by
    rw [beq_eq_false_iff_ne]
    exact fun hh => hne hh.symm
  have hmiss : get_cached_analysis
      ⟨[⟨1, "u"⟩], [⟨1, "", "mH", "basic", Json.null, 1, 1, 0, 0, 1, 5⟩], []⟩
      "u" (some (get_profile_version (Json.mkObj [("body_type", Json.str "petite")])))
      "basic" = none := by
    simp [get_cached_analysis, lookupRow, List.find?, List.filter, rowMatches,
      hbeq, latestRow]
  have hmiss2 : get_cached_analysis
      (get_or_create
        ⟨[⟨1, "u"⟩], [⟨1, "", "mH", "basic", Json.null, 1, 1, 0, 0, 1, 5⟩], []⟩
        "u").1
      "u"
      ((some (Json.mkObj [("body_type", Json.str "petite")])).map get_profile_version)
      "basic" = none := by
    rw [Option.map_some']
    exact hmiss
  have h := analyze_miss_ok_eq
    ⟨[⟨1, "u"⟩], [⟨1, "", "mH", "basic", Json.null, 1, 1, 0, 0, 1, 5⟩], []⟩
    9 ⟨Json.null, ⟨1, 2, 3, 4⟩, 1, "m"⟩
    ⟨"u", some (Json.mkObj [("body_type", Json.str "petite")]), "basic", true, "s"⟩
    hmiss2
  refine ⟨rfl, h.1, ?_, hne⟩
  rw [h.2]
  rfl

/-- C8 as stated is false on the code: this invocation reaches a
terminal state (a cache hit, returned successfully), yet no CostLogEntry
at all is created — the cost_log table stays empty. -/
theorem analyze_hit_no_cost_log_counterexample :
    (analyze ⟨[⟨1, "u"⟩], [⟨1, "", "m", "basic", Json.null, 7, 8, 0, 0, 1, 5⟩], []⟩
      9 (.err "unused") true ⟨"u", none, "basic", true, "s"⟩).response =
      .ok (responseOfCached ⟨Json.null, "m", 7, 8, 1⟩) ∧
    (analyze ⟨[⟨1, "u"⟩], [⟨1, "", "m", "basic", Json.null, 7, 8, 0, 0, 1, 5⟩], []⟩
      9 (.err "unused") true ⟨"u", none, "basic", true, "s"⟩).db.cost_log = [] :=
  ⟨rfl, rfl⟩

/-- C8 corrected: exactly one CostLogEntry, scoped to the session
identifier of the request, is appended when a cache miss is followed by
a successful inference call and successful persistence; a cache hit, a
failed inference call, and a failed persistence all append none. -/
theorem analyze_cost_log_policy (db : Db) (now : Nat) (r : AiResult) (e : String)
    (provider : AiOutcome) (storeOk : Bool) (request : AnalysisRequest) :
    (∀ c, get_cached_analysis (get_or_create db request.product_url).1
        request.product_url (request.user_profile.map get_profile_version)
        request.mode = some c →
      (analyze db now provider storeOk request).db.cost_log = db.cost_log) ∧
    (get_cached_analysis (get_or_create db request.product_url).1
        request.product_url (request.user_profile.map get_profile_version)
        request.mode = none →
      ((analyze db now (.err e) storeOk request).db.cost_log = db.cost_log ∧
        (analyze db now (.ok r) false request).db.cost_log = db.cost_log ∧
        (analyze db now (.ok r) true request).db.cost_log =
          db.cost_log ++
            [⟨request.session_id, r.model_used, r.tokens.input, r.tokens.output,
              r.tokens.cache_read, r.tokens.cache_write, r.cost_usd,
              request.mode⟩])) := by
  have hga := get_or_create_tables db request.product_url
  constructor
  · intro c h
    simp only [analyze, h]
    exact hga.2
  · intro h
    refine ⟨?_, ?_, ?_⟩
    · simp only [analyze, h]
      exact hga.2
    · simp only [analyze, h, Bool.false_eq_true, if_false]
      exact hga.2
    · simp only [analyze, h, store_analysis, log_cost, if_true]
      rw [hga.2]

/-- Witness for the corrected C8 on a concrete empty store: the
successful miss logs one entry under the session id, the failed call
logs none. -/
theorem analyze_cost_log_policy_witness :
    (analyze ⟨[], [], []⟩ 9 (.ok ⟨Json.null, ⟨1, 2, 3, 4⟩, 1, "m"⟩) true
        ⟨"u", none, "basic", true, "s"⟩).db.cost_log =
      [] ++ [⟨"s", "m", 1, 2, 3, 4, 1, "basic"⟩] ∧
    (analyze ⟨[], [], []⟩ 9 (.err "boom") true
        ⟨"u", none, "basic", true, "s"⟩).db.cost_log = [] :=
  ⟨((analyze_cost_log_policy ⟨[], [], []⟩ 9 ⟨Json.null, ⟨1, 2, 3, 4⟩, 1, "m"⟩ "boom"
      (.err "boom") true ⟨"u", none, "basic", true, "s"⟩).2 rfl).2.2,
   ((analyze_cost_log_policy ⟨[], [], []⟩ 9 ⟨Json.null, ⟨1, 2, 3, 4⟩, 1, "m"⟩ "boom"
      (.err "boom") true ⟨"u", none, "basic", true, "s"⟩).2 rfl).1⟩

/-- C9 as stated is false on the code: the inference call succeeds, the
persistence of the result fails with a CacheError, and the orchestrator
returns the error rather than the successful analysis — analyze wraps
neither store_analysis nor log_cost in a try block. -/
theorem analyze_store_failure_counterexample :
    (analyze ⟨[], [], []⟩ 9 (.ok ⟨Json.null, ⟨1, 2, 3, 4⟩, 1, "m"⟩) false
      ⟨"u", none, "basic", true, "s"⟩).response = .error "CacheError" := rfl

/-- C9 corrected: a CacheError raised while persisting a successful
result propagates out of the orchestrator: the response is the error,
the successful analysis is not returned, and nothing is written to the
analyses or cost_log tables. -/
theorem analyze_store_failure_propagates (db : Db) (now : Nat) (r : AiResult)
    (request : AnalysisRequest)
    (hmiss : get_cached_analysis (get_or_create db request.product_url).1
      request.product_url (request.user_profile.map get_profile_version)
      request.mode = none) :
    (analyze db now (.ok r) false request).response = .error "CacheError" ∧
    (analyze db now (.ok r) false request).db.analyses = db.analyses ∧
    (analyze db now (.ok r) false request).db.cost_log = db.cost_log := by
  have hga := get_or_create_tables db request.product_url
  simp only [analyze, hmiss, Bool.false_eq_true, if_false]
  exact ⟨trivial, hga.1, hga.2⟩

/-- Witness for the corrected C9 at a concrete store failure. -/
theorem analyze_store_failure_propagates_witness :
    (analyze ⟨[], [], []⟩ 9 (.ok ⟨Json.null, ⟨1, 2, 3, 4⟩, 1, "m"⟩) false
      ⟨"u", none, "basic", true, "s"⟩).db.analyses = [] ∧
    (analyze ⟨[], [], []⟩ 9 (.ok ⟨Json.null, ⟨1, 2, 3, 4⟩, 1, "m"⟩) false
      ⟨"u", none, "basic", true, "s"⟩).db.cost_log = [] :=
  ⟨(analyze_store_failure_propagates ⟨[], [], []⟩ 9 ⟨Json.null, ⟨1, 2, 3, 4⟩, 1, "m"⟩
      ⟨"u", none, "basic", true, "s"⟩ rfl).2.1,
   (analyze_store_failure_propagates ⟨[], [], []⟩ 9 ⟨Json.null, ⟨1, 2, 3, 4⟩, 1, "m"⟩
      ⟨"u", none, "basic", true, "s"⟩ rfl).2.2⟩

/-! ### Properties of the client retry controller -/

/-- The automatic retries remaining never exceed MAX_RETRIES minus the
current counter. -/
theorem runAnalysisFrom_retry_bound :
    ∀ (attempts : List Attempt) (count : Nat),
      (runAnalysisFrom count attempts).1.length ≤ MAX_RETRIES - count := by
  intro attempts
  induction attempts with
  | nil => intro count; simp [runAnalysisFrom]
  | cons a rest ih =>
    intro count
    cases a with
    | ok => simp [runAnalysisFrom]
    | fail msg =>
      rw [runAnalysisFrom]
      by_cases hc : (decide (count < MAX_RETRIES) && shouldAutoRetry msg) = true
      · rw [if_pos hc]
        have hlt : count < MAX_RETRIES := by
          have h2 := (Bool.and_eq_true _ _).mp hc
          exact of_decide_eq_true h2.1
        have h3 := ih (count + 1)
        simp only [MAX_RETRIES] at hlt h3 ⊢
        simp only [List.length_cons]
        omega
      · rw [if_neg hc]
        simp

/-- C6: three consecutive connectivity failures followed by a success
produce exactly three automatic retries at delays 2s, 5s and 10s, end in
success, and reset the retry counter to zero; an auth-classified failure
produces zero automatic retries and is surfaced; and in every run the
number of automatic retries never exceeds MAX_RETRIES = 3 before the
error is surfaced.  The classification of the two concrete messages is
checked against parseError. -/
theorem retry_controller_policy :
    runAnalysis [.fail "NetworkError: Failed to fetch",
        .fail "NetworkError: Failed to fetch", .fail "NetworkError: Failed to fetch",
        .ok] = ([2000, 5000, 10000], 0, .success) ∧
    (parseError "NetworkError: Failed to fetch").title = "Connection Error" ∧
    (∀ rest, runAnalysis (.fail "Invalid API key (401 unauthorized)" :: rest) =
      ([], 0, .surfaced "Invalid API key (401 unauthorized)")) ∧
    (parseError "Invalid API key (401 unauthorized)").title = "API Key Required" ∧
    (∀ attempts, (runAnalysis attempts).1.length ≤ MAX_RETRIES) := by
  refine ⟨rfl, rfl, fun rest => rfl, rfl, fun attempts => ?_⟩
  have h := runAnalysisFrom_retry_bound attempts 0
  simpa [runAnalysis] using h

/-! ### Properties of the background message handler -/

/-- C10: handleMessage is a total function into MessageResponse — the
embedding is a Lean function, so it never throws — and on every failure
path it returns success: false with the extracted message: a message
whose type tag is none of the four known tags yields the fixed
"Unknown message type" error, and a handler that throws yields the
thrown message (or "Unknown error" for a non-Error value) for each of
the four message kinds. -/
theorem handleMessage_never_throws (env : BackgroundEnv) (message : RuntimeMessage) :
    (message.type ∉ (["ANALYZE_PRODUCT", "GET_PROFILE", "TEST_CONNECTION",
        "GET_SETTINGS"] : List String) →
      handleMessage env message = .err "Unknown message type") ∧
    (∀ e, message.type = "ANALYZE_PRODUCT" →
      env.analyzeProduct message.url message.html = .error e →
      handleMessage env message = .err (errorMessageOf e)) ∧
    (∀ e, message.type = "GET_PROFILE" → env.getProfile = .error e →
      handleMessage env message = .err (errorMessageOf e)) ∧
    (∀ e, message.type = "TEST_CONNECTION" → env.testConnection = .error e →
      handleMessage env message = .err (errorMessageOf e)) ∧
    (∀ e, message.type = "GET_SETTINGS" → env.getSettings = .error e →
      handleMessage env message = .err (errorMessageOf e)) := by
  refine ⟨?_, ?_, ?_, ?_, ?_⟩
  · intro hnot
    have h1 : message.type ≠ "ANALYZE_PRODUCT" := fun h => hnot (by rw [h]; simp)
    have h2 : message.type ≠ "GET_PROFILE" := fun h => hnot (by rw [h]; simp)
    have h3 : message.type ≠ "TEST_CONNECTION" := fun h => hnot (by rw [h]; simp)
    have h4 : message.type ≠ "GET_SETTINGS" := fun h => hnot (by rw [h]; simp)
    simp [handleMessage, h1, h2, h3, h4]
  · intro e ht he
    simp [handleMessage, ht, he, Except.map]
  · intro e ht he
    have h1 : message.type ≠ "ANALYZE_PRODUCT" := by rw [ht]; decide
    simp [handleMessage, ht, he, h1, Except.map]
  · intro e ht he
    have h1 : message.type ≠ "ANALYZE_PRODUCT" := by rw [ht]; decide
    have h2 : message.type ≠ "GET_PROFILE" := by rw [ht]; decide
    simp [handleMessage, ht, he, h1, h2, Except.map]
  · intro e ht he
    have h1 : message.type ≠ "ANALYZE_PRODUCT" := by rw [ht]; decide
    have h2 : message.type ≠ "GET_PROFILE" := by rw [ht]; decide
    have h3 : message.type ≠ "TEST_CONNECTION" := by rw [ht]; decide
    simp [handleMessage, ht, he, h1, h2, h3, Except.map]

/-- Witness for C10: a throwing analyze handler and an unknown tag both
come back as error responses instead of propagating. -/
theorem handleMessage_never_throws_witness :
    handleMessage ⟨fun _ _ => .error (.errObj "boom"), .ok Json.null, .ok Json.null,
        .ok Json.null⟩ ⟨"ANALYZE_PRODUCT", "u", "h"⟩ = .err "boom" ∧
    handleMessage ⟨fun _ _ => .error (.errObj "boom"), .ok Json.null, .ok Json.null,
        .ok Json.null⟩ ⟨"BOGUS", "u", "h"⟩ = .err "Unknown message type" :=
  ⟨(handleMessage_never_throws _ _).2.1 (.errObj "boom") rfl rfl,
   (handleMessage_never_throws _ _).1 (by decide)⟩
